import Mathlib

/-!
Shallow embedding of `src/index.js` (class `CustomNavbarEffects`): a navbar
scroll-effect controller.  DOM elements are records of the pieces of state the
program reads and writes (class list, inline style, rendered width); the
controller instance is a `NavbarState` record; each method of the class is a
state-transforming Lean function.  `showNavbar`/`hideNavbar` dereference the
cached container unconditionally in the source, so they return `Option`:
`none` models the uncaught null dereference.
-/

set_option autoImplicit false

namespace Navbar

/-- Inline style record: the three style properties the program writes
(`style.opacity`, `style.width`, `style.transition`).  `none` means the inline
property was never set. -/
structure Style where
  opacity : Option String := none
  width : Option String := none
  transition : Option String := none
  deriving DecidableEq, Repr

/-- A DOM element, reduced to the pieces the program reads and writes:
its class list, its inline style, and its rendered width (`offsetWidth`). -/
structure Elem where
  classes : List String := []
  style : Style := {}
  offsetWidth : Nat := 0
  deriving DecidableEq, Repr

/-- The configuration record built in the constructor (`this.config`). -/
structure Config where
  containerSelector : String
  ctaBtnContainerSelector : String
  logoContainerSelector : String
  navbarMainSectionSelector : String
  navbarItemsSectionSelector : String
  scrollThreshold : Int
  transitionDuration : Int
  deriving DecidableEq, Repr

/-- A partial configuration record, as passed to the constructor and to
`updateConfig`: a field that is `none` is absent from the JS object literal. -/
structure PartialConfig where
  containerSelector : Option String := none
  ctaBtnContainerSelector : Option String := none
  logoContainerSelector : Option String := none
  navbarMainSectionSelector : Option String := none
  navbarItemsSectionSelector : Option String := none
  scrollThreshold : Option Int := none
  transitionDuration : Option Int := none
  deriving DecidableEq, Repr

/-- The element cache `this.elements`.  `none` means the lookup returned
`null` (or the key is absent from the object). -/
structure Elements where
  container : Option Elem := none
  ctaBtnContainer : Option Elem := none
  logoContainer : Option Elem := none
  navbarMainSection : Option Elem := none
  navbarItemsSection : Option Elem := none
  leftEmpty : Option Elem := none
  rightEmpty : Option Elem := none
  deriving DecidableEq, Repr

/-- The dimension cache `this.dimensions`; `none` means never measured. -/
structure Dimensions where
  leftEmptyWidth : Option Nat := none
  rightEmptyWidth : Option Nat := none
  deriving DecidableEq, Repr

/-- `this.scrollState`. -/
structure ScrollState where
  lastScrollY : Int
  isScrollingUp : Bool
  isInitialized : Bool
  deriving DecidableEq, Repr

/-- The whole controller instance. -/
structure NavbarState where
  config : Config
  elements : Elements := {}
  dimensions : Dimensions := {}
  scrollState : ScrollState := { lastScrollY := 0, isScrollingUp := false, isInitialized := false }
  deriving DecidableEq, Repr

/-- The page environment the constructor reads: `document.querySelector`,
the children of the main section's parent element, `document.readyState`
and `window.scrollY` at construction time. -/
structure Doc where
  query : String → Option Elem
  mainParentChildren : List Elem := []
  readyLoading : Bool := false
  scrollY : Int := 0

/-- Default configuration from the constructor. -/
def defaultConfig : Config where
  containerSelector := "[data-framer-name=\"Main Navbar\"]"
  ctaBtnContainerSelector := "[data-framer-name=\"CTA Container\"]"
  logoContainerSelector := "[data-framer-name=\"Logo\"]"
  navbarMainSectionSelector := "[data-framer-name=\"Navbar Main Section\"]"
  navbarItemsSectionSelector := "[data-framer-name=\"Nav Items\"]"
  scrollThreshold := 10
  transitionDuration := 200

/-- `{ ...c, ...p }`: shallow merge, later keys win. -/
def mergeConfig (c : Config) (p : PartialConfig) : Config where
  containerSelector := p.containerSelector.getD c.containerSelector
  ctaBtnContainerSelector := p.ctaBtnContainerSelector.getD c.ctaBtnContainerSelector
  logoContainerSelector := p.logoContainerSelector.getD c.logoContainerSelector
  navbarMainSectionSelector := p.navbarMainSectionSelector.getD c.navbarMainSectionSelector
  navbarItemsSectionSelector := p.navbarItemsSectionSelector.getD c.navbarItemsSectionSelector
  scrollThreshold := p.scrollThreshold.getD c.scrollThreshold
  transitionDuration := p.transitionDuration.getD c.transitionDuration

/-- `classList.add`: appends the token if not already present. -/
def classListAdd (cls : String) (l : List String) : List String :=
  if cls ∈ l then l else l ++ [cls]

/-- `classList.remove`: removes the token. -/
def classListRemove (cls : String) (l : List String) : List String :=
  l.filter (· ≠ cls)

/-- `` `${w}px` ``. -/
def pxString (w : Nat) : String := toString w ++ "px"

/-- The element lookups performed at the top of `cacheElements`. -/
def queryElements (doc : Doc) (cfg : Config) : Elements where
  container := doc.query cfg.containerSelector
  ctaBtnContainer := doc.query cfg.ctaBtnContainerSelector
  logoContainer := doc.query cfg.logoContainerSelector
  navbarMainSection := doc.query cfg.navbarMainSectionSelector
  navbarItemsSection := doc.query cfg.navbarItemsSectionSelector
  leftEmpty := none
  rightEmpty := none

/-- `const requiredElements = ['container', 'navbarMainSection', 'navbarItemsSection']`. -/
def requiredRoles : List String := ["container", "navbarMainSection", "navbarItemsSection"]

/-- Dynamic property access `this.elements[key]` for the role names used in
the required-element check. -/
def lookupRole (els : Elements) (role : String) : Option Elem :=
  if role = "container" then els.container
  else if role = "ctaBtnContainer" then els.ctaBtnContainer
  else if role = "logoContainer" then els.logoContainer
  else if role = "navbarMainSection" then els.navbarMainSection
  else if role = "navbarItemsSection" then els.navbarItemsSection
  else if role = "leftEmpty" then els.leftEmpty
  else if role = "rightEmpty" then els.rightEmpty
  else none

/-- The list of missing required role names computed in `cacheElements`. -/
def missingElements (els : Elements) : List String :=
  requiredRoles.filter (fun key => (lookupRole els key).isNone)

/-- The error message thrown by `cacheElements`. -/
def requiredErrorMsg (missing : List String) : String :=
  "Required elements not found: " ++ String.intercalate ", " missing

/-- `cacheElements()`: performs the lookups, validates the required roles, and
derives the spacers positionally.  Returns the state after the assignments the
method executed, together with `some msg` when it threw.  (The source assigns
`this.elements` before validating, so on failure the partial lookups are
already stored.) -/
def cacheElements (doc : Doc) (s : NavbarState) : NavbarState × Option String :=
  let els := queryElements doc s.config
  let s1 := { s with elements := els }
  let missing := missingElements els
  if missing.length > 0 then
    (s1, some (requiredErrorMsg missing))
  else
    let parentChildren := doc.mainParentChildren
    ({ s1 with elements :=
        { els with
          leftEmpty := parentChildren.get? 0
          rightEmpty := parentChildren.get? 2 } }, none)

/-- `` `opacity ${d}ms ease-in-out` ``. -/
def transitionStyleStr (d : Int) : String := "opacity " ++ toString d ++ "ms ease-in-out"

/-- `` `width ${d}ms ease-in-out` ``. -/
def widthTransitionStyleStr (d : Int) : String := "width " ++ toString d ++ "ms ease-in-out"

/-- Writes `elem.style.transition`. -/
def setTransition (t : String) (e : Elem) : Elem :=
  { e with style := { e.style with transition := some t } }

/-- `setupTransitions()`. -/
def setupTransitions (s : NavbarState) : NavbarState :=
  let d := s.config.transitionDuration
  { s with elements :=
      { s.elements with
        navbarItemsSection := s.elements.navbarItemsSection.map (setTransition (transitionStyleStr d))
        leftEmpty := s.elements.leftEmpty.map (setTransition (widthTransitionStyleStr d))
        rightEmpty := s.elements.rightEmpty.map (setTransition (widthTransitionStyleStr d)) } }

/-- The left half of `updateDimensions()`: measure `leftEmpty.offsetWidth`,
store it in the dimension cache, and pin it as the inline width. -/
def measureLeft (s : NavbarState) : NavbarState :=
  match s.elements.leftEmpty with
  | some e =>
      { s with
        dimensions := { s.dimensions with leftEmptyWidth := some e.offsetWidth }
        elements := { s.elements with
          leftEmpty := some { e with style := { e.style with width := some (pxString e.offsetWidth) } } } }
  | none => s

/-- The right half of `updateDimensions()`. -/
def measureRight (s : NavbarState) : NavbarState :=
  match s.elements.rightEmpty with
  | some e =>
      { s with
        dimensions := { s.dimensions with rightEmptyWidth := some e.offsetWidth }
        elements := { s.elements with
          rightEmpty := some { e with style := { e.style with width := some (pxString e.offsetWidth) } } } }
  | none => s

/-- `updateDimensions()`. -/
def updateDimensions (s : NavbarState) : NavbarState :=
  measureRight (measureLeft s)

/-- `handleLoad()`: re-measure dimensions and record the current scroll
position (`window.scrollY` is passed in as `y`). -/
def handleLoad (y : Int) (s : NavbarState) : NavbarState :=
  let s := updateDimensions s
  { s with scrollState := { s.scrollState with lastScrollY := y } }

/-- `bindEvents()`: listener registration itself has no effect on the state;
when the document is past the loading stage `handleLoad` runs immediately. -/
def bindEvents (doc : Doc) (s : NavbarState) : NavbarState :=
  if doc.readyLoading then s else handleLoad doc.scrollY s

/-- `handleResize()`. -/
def handleResize (s : NavbarState) : NavbarState :=
  updateDimensions s

/-- `init()`: the `try` block; the thrown error is caught and logged, leaving
`isInitialized` false and the partially assigned element cache in place. -/
def init (doc : Doc) (s : NavbarState) : NavbarState :=
  match cacheElements doc s with
  | (s1, some _) => s1
  | (s1, none) =>
      let s2 := setupTransitions s1
      let s3 := bindEvents doc s2
      let s4 := updateDimensions s3
      { s4 with scrollState := { s4.scrollState with isInitialized := true } }

/-- The constructor: merge options over defaults, initialise empty caches and
scroll state, then run `init`. -/
def mkState (options : PartialConfig) (doc : Doc) : NavbarState :=
  init doc { config := mergeConfig defaultConfig options }

/-- The spacer-width restore performed by `showNavbar`: restores the cached
width only when the cached value is truthy (present and nonzero). -/
def restoreWidth (dim : Option Nat) (e : Elem) : Elem :=
  match dim with
  | some w => if w ≠ 0 then { e with style := { e.style with width := some (pxString w) } } else e
  | none => e

/-- `showNavbar()`: `none` models the null dereference of
`this.elements.container`. -/
def showNavbar (s : NavbarState) : Option NavbarState :=
  match s.elements.container with
  | none => none
  | some c =>
      some { s with elements :=
        { s.elements with
          container := some { c with classes := classListAdd "scroll-up" (classListRemove "scroll-down" c.classes) }
          navbarItemsSection := s.elements.navbarItemsSection.map
            (fun e => { e with style := { e.style with opacity := some "1" } })
          leftEmpty := s.elements.leftEmpty.map (restoreWidth s.dimensions.leftEmptyWidth)
          rightEmpty := s.elements.rightEmpty.map (restoreWidth s.dimensions.rightEmptyWidth) } }

/-- `hideNavbar()`. -/
def hideNavbar (s : NavbarState) : Option NavbarState :=
  match s.elements.container with
  | none => none
  | some c =>
      some { s with elements :=
        { s.elements with
          container := some { c with classes := classListAdd "scroll-down" (classListRemove "scroll-up" c.classes) }
          navbarItemsSection := s.elements.navbarItemsSection.map
            (fun e => { e with style := { e.style with opacity := some "0" } })
          leftEmpty := s.elements.leftEmpty.map
            (fun e => { e with style := { e.style with width := some "0px" } })
          rightEmpty := s.elements.rightEmpty.map
            (fun e => { e with style := { e.style with width := some "0px" } }) } }

/-- `updateNavbarState(isScrollingUp)`. -/
def updateNavbarState (isScrollingUp : Bool) (s : NavbarState) : Option NavbarState :=
  if isScrollingUp then showNavbar s else hideNavbar s

/-- `handleScroll()`, with the current `window.scrollY` passed in.  Note that
the source computes `isScrollingUp` into a local constant and never writes it
back into `this.scrollState`. -/
def handleScroll (currentScrollY : Int) (s : NavbarState) : Option NavbarState :=
  if s.scrollState.isInitialized = false then some s
  else
    let scrollDelta := |currentScrollY - s.scrollState.lastScrollY|
    if scrollDelta < s.config.scrollThreshold then some s
    else
      let isScrollingUp := decide (currentScrollY < s.scrollState.lastScrollY)
      match updateNavbarState isScrollingUp s with
      | none => none
      | some s1 => some { s1 with scrollState := { s1.scrollState with lastScrollY := currentScrollY } }

/-- Truthiness of `newConfig.transitionDuration` in `updateConfig`: absent and
`0` are both falsy. -/
def truthyDuration : Option Int → Bool
  | some d => d != 0
  | none => false

/-- `updateConfig(newConfig)`. -/
def updateConfig (newConfig : PartialConfig) (s : NavbarState) : NavbarState :=
  let s := { s with config := mergeConfig s.config newConfig }
  if truthyDuration newConfig.transitionDuration then setupTransitions s else s

/-- `destroy()`: listener removal has no effect on the modelled state; the
initialized flag is cleared. -/
def destroy (s : NavbarState) : NavbarState :=
  { s with scrollState := { s.scrollState with isInitialized := false } }

/-- `getScrollState()` (shallow copy of a flat record). -/
def getScrollState (s : NavbarState) : ScrollState := s.scrollState

/-- `getConfig()` (shallow copy of a flat record). -/
def getConfig (s : NavbarState) : Config := s.config

/-- Environment action, not part of the program: the page layout changes the
rendered widths of the spacers (what a real window resize does before the
resize handler runs). -/
def envSetWidths (lw rw : Nat) (s : NavbarState) : NavbarState :=
  { s with elements :=
      { s.elements with
        leftEmpty := s.elements.leftEmpty.map (fun e => { e with offsetWidth := lw })
        rightEmpty := s.elements.rightEmpty.map (fun e => { e with offsetWidth := rw }) } }

/-- States reachable through the program's public surface: construction
followed by any interleaving of scroll, resize and load events, runtime
reconfiguration, teardown, and layout changes by the environment. -/
inductive Reachable : NavbarState → Prop
  | construct (options : PartialConfig) (doc : Doc) : Reachable (mkState options doc)
  | scroll (y : Int) {s s' : NavbarState} : Reachable s → handleScroll y s = some s' → Reachable s'
  | resize {s : NavbarState} : Reachable s → Reachable (handleResize s)
  | load (y : Int) {s : NavbarState} : Reachable s → Reachable (handleLoad y s)
  | reconfig (p : PartialConfig) {s : NavbarState} : Reachable s → Reachable (updateConfig p s)
  | teardown {s : NavbarState} : Reachable s → Reachable (destroy s)
  | render (lw rw : Nat) {s : NavbarState} : Reachable s → Reachable (envSetWidths lw rw s)

/-- Data invariant of the controller: once initialized, the required elements
are cached; and a spacer whose cached measured width is zero already has
inline width `"0px"` (it was pinned to its measured width when measured, and
show/hide never move it away from `"0px"` afterwards). -/
structure Inv (s : NavbarState) : Prop where
  req : s.scrollState.isInitialized = true →
    s.elements.container.isSome = true ∧ s.elements.navbarMainSection.isSome = true ∧
      s.elements.navbarItemsSection.isSome = true
  leftZero : ∀ e, s.elements.leftEmpty = some e → s.dimensions.leftEmptyWidth = some 0 →
    e.style.width = some "0px"
  rightZero : ∀ e, s.elements.rightEmpty = some e → s.dimensions.rightEmptyWidth = some 0 →
    e.style.width = some "0px"

/-! Concrete page used by the witnesses: all five selectors resolve, the main
section's parent has three children, the page is past loading at scroll
offset 100, and the spacers render at 80 and 60 pixels. -/

def demoContainer : Elem := {}

def demoCta : Elem := {}

def demoLogo : Elem := {}

def demoMain : Elem := {}

def demoItems : Elem := {}

def demoLeft : Elem := { offsetWidth := 80 }

def demoMid : Elem := {}

def demoRight : Elem := { offsetWidth := 60 }

def fullDoc : Doc where
  query := fun sel =>
    if sel = defaultConfig.containerSelector then some demoContainer
    else if sel = defaultConfig.ctaBtnContainerSelector then some demoCta
    else if sel = defaultConfig.logoContainerSelector then some demoLogo
    else if sel = defaultConfig.navbarMainSectionSelector then some demoMain
    else if sel = defaultConfig.navbarItemsSectionSelector then some demoItems
    else none
  mainParentChildren := [demoLeft, demoMid, demoRight]
  readyLoading := false
  scrollY := 100

/-- The controller constructed with default options on the demo page. -/
def demoState : NavbarState := mkState {} fullDoc

/-- A page on which no selector resolves. -/
def emptyDoc : Doc where
  query := fun _ => none

/-- The demo page with only two children in the main section's parent. -/
def shortDoc : Doc := { fullDoc with mainParentChildren := [demoLeft, demoMid] }

/-- The demo page whose spacers render at width 0. -/
def zeroDoc : Doc := { fullDoc with mainParentChildren := [{}, demoMid, {}] }

/-- The controller constructed with default options on the zero-width-spacer
page: both cached spacer widths are 0. -/
def zeroState : NavbarState := mkState {} zeroDoc

/-! Projection lemmas: which pieces of the state each operation leaves alone. -/

@[simp] theorem setupTransitions_container (s : NavbarState) :
    (setupTransitions s).elements.container = s.elements.container := rfl

@[simp] theorem setupTransitions_mainSection (s : NavbarState) :
    (setupTransitions s).elements.navbarMainSection = s.elements.navbarMainSection := rfl

@[simp] theorem setupTransitions_items (s : NavbarState) :
    (setupTransitions s).elements.navbarItemsSection =
      s.elements.navbarItemsSection.map (setTransition (transitionStyleStr s.config.transitionDuration)) := rfl

@[simp] theorem setupTransitions_left (s : NavbarState) :
    (setupTransitions s).elements.leftEmpty =
      s.elements.leftEmpty.map (setTransition (widthTransitionStyleStr s.config.transitionDuration)) := rfl

@[simp] theorem setupTransitions_right (s : NavbarState) :
    (setupTransitions s).elements.rightEmpty =
      s.elements.rightEmpty.map (setTransition (widthTransitionStyleStr s.config.transitionDuration)) := rfl

@[simp] theorem setupTransitions_scrollState (s : NavbarState) :
    (setupTransitions s).scrollState = s.scrollState := rfl

@[simp] theorem setupTransitions_dimensions (s : NavbarState) :
    (setupTransitions s).dimensions = s.dimensions := rfl

@[simp] theorem setupTransitions_config (s : NavbarState) :
    (setupTransitions s).config = s.config := rfl

@[simp] theorem measureLeft_container (s : NavbarState) :
    (measureLeft s).elements.container = s.elements.container := by
  rcases h : s.elements.leftEmpty with _ | e <;> simp [measureLeft, h]

@[simp] theorem measureLeft_mainSection (s : NavbarState) :
    (measureLeft s).elements.navbarMainSection = s.elements.navbarMainSection := by
  rcases h : s.elements.leftEmpty with _ | e <;> simp [measureLeft, h]

@[simp] theorem measureLeft_items (s : NavbarState) :
    (measureLeft s).elements.navbarItemsSection = s.elements.navbarItemsSection := by
  rcases h : s.elements.leftEmpty with _ | e <;> simp [measureLeft, h]

@[simp] theorem measureLeft_rightEmpty (s : NavbarState) :
    (measureLeft s).elements.rightEmpty = s.elements.rightEmpty := by
  rcases h : s.elements.leftEmpty with _ | e <;> simp [measureLeft, h]

@[simp] theorem measureLeft_rightDim (s : NavbarState) :
    (measureLeft s).dimensions.rightEmptyWidth = s.dimensions.rightEmptyWidth := by
  rcases h : s.elements.leftEmpty with _ | e <;> simp [measureLeft, h]

@[simp] theorem measureLeft_scrollState (s : NavbarState) :
    (measureLeft s).scrollState = s.scrollState := by
  rcases h : s.elements.leftEmpty with _ | e <;> simp [measureLeft, h]

@[simp] theorem measureLeft_config (s : NavbarState) :
    (measureLeft s).config = s.config := by
  rcases h : s.elements.leftEmpty with _ | e <;> simp [measureLeft, h]

@[simp] theorem measureRight_container (s : NavbarState) :
    (measureRight s).elements.container = s.elements.container := by
  rcases h : s.elements.rightEmpty with _ | e <;> simp [measureRight, h]

@[simp] theorem measureRight_mainSection (s : NavbarState) :
    (measureRight s).elements.navbarMainSection = s.elements.navbarMainSection := by
  rcases h : s.elements.rightEmpty with _ | e <;> simp [measureRight, h]

@[simp] theorem measureRight_items (s : NavbarState) :
    (measureRight s).elements.navbarItemsSection = s.elements.navbarItemsSection := by
  rcases h : s.elements.rightEmpty with _ | e <;> simp [measureRight, h]

@[simp] theorem measureRight_leftEmpty (s : NavbarState) :
    (measureRight s).elements.leftEmpty = s.elements.leftEmpty := by
  rcases h : s.elements.rightEmpty with _ | e <;> simp [measureRight, h]

@[simp] theorem measureRight_leftDim (s : NavbarState) :
    (measureRight s).dimensions.leftEmptyWidth = s.dimensions.leftEmptyWidth := by
  rcases h : s.elements.rightEmpty with _ | e <;> simp [measureRight, h]

@[simp] theorem measureRight_scrollState (s : NavbarState) :
    (measureRight s).scrollState = s.scrollState := by
  rcases h : s.elements.rightEmpty with _ | e <;> simp [measureRight, h]

@[simp] theorem measureRight_config (s : NavbarState) :
    (measureRight s).config = s.config := by
  rcases h : s.elements.rightEmpty with _ | e <;> simp [measureRight, h]

@[simp] theorem updateDimensions_container (s : NavbarState) :
    (updateDimensions s).elements.container = s.elements.container := by
  simp [updateDimensions]

@[simp] theorem updateDimensions_mainSection (s : NavbarState) :
    (updateDimensions s).elements.navbarMainSection = s.elements.navbarMainSection := by
  simp [updateDimensions]

@[simp] theorem updateDimensions_items (s : NavbarState) :
    (updateDimensions s).elements.navbarItemsSection = s.elements.navbarItemsSection := by
  simp [updateDimensions]

@[simp] theorem updateDimensions_scrollState (s : NavbarState) :
    (updateDimensions s).scrollState = s.scrollState := by
  simp [updateDimensions]

@[simp] theorem updateDimensions_config (s : NavbarState) :
    (updateDimensions s).config = s.config := by
  simp [updateDimensions]

/-- After `measureLeft`, a left spacer with cached width zero has inline width
`"0px"` (the cache and the pinned style are written together). -/
theorem leftZero_measureLeft (s : NavbarState) :
    ∀ e, (measureLeft s).elements.leftEmpty = some e →
      (measureLeft s).dimensions.leftEmptyWidth = some 0 → e.style.width = some "0px" := by
  intro e he hd
  rcases hl : s.elements.leftEmpty with _ | el <;> simp [measureLeft, hl] at he hd
  subst he
  simp [hd]
  decide

/-- Right-spacer analogue of `leftZero_measureLeft`. -/
theorem rightZero_measureRight (s : NavbarState) :
    ∀ e, (measureRight s).elements.rightEmpty = some e →
      (measureRight s).dimensions.rightEmptyWidth = some 0 → e.style.width = some "0px" := by
  intro e he hd
  rcases hl : s.elements.rightEmpty with _ | el <;> simp [measureRight, hl] at he hd
  subst he
  simp [hd]
  decide

/-- After `updateDimensions`, a left spacer with cached width zero has inline
width `"0px"`. -/
theorem leftZero_updateDimensions (s : NavbarState) :
    ∀ e, (updateDimensions s).elements.leftEmpty = some e →
      (updateDimensions s).dimensions.leftEmptyWidth = some 0 → e.style.width = some "0px" := by
  intro e he hd
  simp only [updateDimensions, measureRight_leftEmpty, measureRight_leftDim] at he hd
  exact leftZero_measureLeft s e he hd

/-- After `updateDimensions`, a right spacer with cached width zero has inline
width `"0px"`. -/
theorem rightZero_updateDimensions (s : NavbarState) :
    ∀ e, (updateDimensions s).elements.rightEmpty = some e →
      (updateDimensions s).dimensions.rightEmptyWidth = some 0 → e.style.width = some "0px" := by
  intro e he hd
  simp only [updateDimensions] at he hd
  exact rightZero_measureRight (measureLeft s) e he hd

@[simp] theorem handleLoad_container (y : Int) (s : NavbarState) :
    (handleLoad y s).elements.container = s.elements.container := by
  simp [handleLoad]

@[simp] theorem handleLoad_mainSection (y : Int) (s : NavbarState) :
    (handleLoad y s).elements.navbarMainSection = s.elements.navbarMainSection := by
  simp [handleLoad]

@[simp] theorem handleLoad_items (y : Int) (s : NavbarState) :
    (handleLoad y s).elements.navbarItemsSection = s.elements.navbarItemsSection := by
  simp [handleLoad]

@[simp] theorem handleLoad_flag (y : Int) (s : NavbarState) :
    (handleLoad y s).scrollState.isInitialized = s.scrollState.isInitialized := by
  simp [handleLoad]

@[simp] theorem bindEvents_container (doc : Doc) (s : NavbarState) :
    (bindEvents doc s).elements.container = s.elements.container := by
  by_cases h : doc.readyLoading <;> simp [bindEvents, h]

@[simp] theorem bindEvents_mainSection (doc : Doc) (s : NavbarState) :
    (bindEvents doc s).elements.navbarMainSection = s.elements.navbarMainSection := by
  by_cases h : doc.readyLoading <;> simp [bindEvents, h]

@[simp] theorem bindEvents_items (doc : Doc) (s : NavbarState) :
    (bindEvents doc s).elements.navbarItemsSection = s.elements.navbarItemsSection := by
  by_cases h : doc.readyLoading <;> simp [bindEvents, h]

@[simp] theorem bindEvents_flag (doc : Doc) (s : NavbarState) :
    (bindEvents doc s).scrollState.isInitialized = s.scrollState.isInitialized := by
  by_cases h : doc.readyLoading <;> simp [bindEvents, h]

/-- If the required-element check passed, the three required lookups all
succeeded. -/
theorem required_isSome_of_no_missing (els : Elements)
    (hm : ¬ (missingElements els).length > 0) :
    els.container.isSome = true ∧ els.navbarMainSection.isSome = true ∧
      els.navbarItemsSection.isSome = true := by
  rcases hc : els.container with _ | c <;>
    rcases hn : els.navbarMainSection with _ | n <;>
      rcases hi : els.navbarItemsSection with _ | i <;>
        simp [missingElements, requiredRoles, lookupRole, hc, hn, hi] at hm ⊢

/-! Invariant preservation. -/

theorem inv_updateDimensions {s : NavbarState} (h : Inv s) : Inv (updateDimensions s) := by
  refine ⟨?_, leftZero_updateDimensions s, rightZero_updateDimensions s⟩
  intro hi
  obtain ⟨h1, h2, h3⟩ := h.req (by simpa using hi)
  simp [h1, h2, h3]

theorem inv_handleLoad (y : Int) {s : NavbarState} (h : Inv s) : Inv (handleLoad y s) := by
  refine ⟨?_, ?_, ?_⟩
  · intro hi
    obtain ⟨h1, h2, h3⟩ := h.req (by simpa using hi)
    simp [h1, h2, h3]
  · exact fun e he hd => leftZero_updateDimensions s e he hd
  · exact fun e he hd => rightZero_updateDimensions s e he hd

theorem inv_setupTransitions {s : NavbarState} (h : Inv s) : Inv (setupTransitions s) := by
  refine ⟨?_, ?_, ?_⟩
  · intro hi
    obtain ⟨h1, h2, h3⟩ := h.req (by simpa using hi)
    simp [Option.isSome_map', h1, h2, h3]
  · intro e he hd
    simp only [setupTransitions_left] at he
    simp only [setupTransitions_dimensions] at hd
    rcases hl : s.elements.leftEmpty with _ | el <;> simp [hl] at he
    subst he
    simpa [setTransition] using h.leftZero el hl hd
  · intro e he hd
    simp only [setupTransitions_right] at he
    simp only [setupTransitions_dimensions] at hd
    rcases hl : s.elements.rightEmpty with _ | el <;> simp [hl] at he
    subst he
    simpa [setTransition] using h.rightZero el hl hd

theorem inv_mkState (options : PartialConfig) (doc : Doc) : Inv (mkState options doc) := by
  rw [mkState, init]
  by_cases hm : (missingElements (queryElements doc (mergeConfig defaultConfig options))).length > 0
  · simp only [cacheElements, hm, if_true, reduceIte]
    refine ⟨?_, ?_, ?_⟩
    · intro hi; simp at hi
    · intro e he _; simp [queryElements] at he
    · intro e he _; simp [queryElements] at he
  · simp only [cacheElements, hm, if_false, reduceIte]
    obtain ⟨h1, h2, h3⟩ := required_isSome_of_no_missing _ hm
    refine ⟨?_, ?_, ?_⟩
    · intro _
      simp [Option.isSome_map', h1, h2, h3]
    · exact fun e he hd => leftZero_updateDimensions _ e he hd
    · exact fun e he hd => rightZero_updateDimensions _ e he hd

theorem inv_showNavbar {s s' : NavbarState} (h : Inv s) (hs : showNavbar s = some s') :
    Inv s' := by
  rcases hc : s.elements.container with _ | c
  · simp [showNavbar, hc] at hs
  · simp [showNavbar, hc] at hs
    subst hs
    refine ⟨?_, ?_, ?_⟩
    · intro hi
      obtain ⟨_, h2, h3⟩ := h.req (by simpa using hi)
      simp [Option.isSome_map', h2, h3]
    · intro e he hd
      simp at he hd
      rcases hl : s.elements.leftEmpty with _ | el <;> simp [hl] at he
      subst he
      simp [restoreWidth, hd]
      exact h.leftZero el hl hd
    · intro e he hd
      simp at he hd
      rcases hl : s.elements.rightEmpty with _ | el <;> simp [hl] at he
      subst he
      simp [restoreWidth, hd]
      exact h.rightZero el hl hd

theorem inv_hideNavbar {s s' : NavbarState} (h : Inv s) (hs : hideNavbar s = some s') :
    Inv s' := by
  rcases hc : s.elements.container with _ | c
  · simp [hideNavbar, hc] at hs
  · simp [hideNavbar, hc] at hs
    subst hs
    refine ⟨?_, ?_, ?_⟩
    · intro hi
      obtain ⟨_, h2, h3⟩ := h.req (by simpa using hi)
      simp [Option.isSome_map', h2, h3]
    · intro e he hd
      simp at he
      rcases hl : s.elements.leftEmpty with _ | el <;> simp [hl] at he
      subst he
      simp
    · intro e he hd
      simp at he
      rcases hl : s.elements.rightEmpty with _ | el <;> simp [hl] at he
      subst he
      simp

theorem inv_handleScroll (y : Int) {s s' : NavbarState} (h : Inv s)
    (hs : handleScroll y s = some s') : Inv s' := by
  rw [handleScroll] at hs
  rcases hinit : s.scrollState.isInitialized with _ | _
  · simp [hinit] at hs
    exact hs ▸ h
  · simp only [hinit] at hs
    by_cases hδ : |y - s.scrollState.lastScrollY| < s.config.scrollThreshold
    · simp [hδ] at hs
      exact hs ▸ h
    · simp only [hδ, if_false, reduceIte, Bool.false_eq_true] at hs
      rcases hu : updateNavbarState (decide (y < s.scrollState.lastScrollY)) s with _ | s1
      · simp [hu] at hs
      · simp [hu] at hs
        subst hs
        have h1 : Inv s1 := by
          rw [updateNavbarState] at hu
          by_cases hup : decide (y < s.scrollState.lastScrollY) = true
          · rw [if_pos hup] at hu
            exact inv_showNavbar h hu
          · rw [if_neg hup] at hu
            exact inv_hideNavbar h hu
        exact ⟨h1.req, h1.leftZero, h1.rightZero⟩

theorem inv_updateConfig (p : PartialConfig) {s : NavbarState} (h : Inv s) :
    Inv (updateConfig p s) := by
  rw [updateConfig]
  have h' : Inv { s with config := mergeConfig s.config p } := ⟨h.req, h.leftZero, h.rightZero⟩
  split
  · exact inv_setupTransitions h'
  · exact h'

theorem inv_destroy {s : NavbarState} (h : Inv s) : Inv (destroy s) := by
  refine ⟨?_, h.leftZero, h.rightZero⟩
  intro hi
  simp [destroy] at hi

theorem inv_envSetWidths (lw rw' : Nat) {s : NavbarState} (h : Inv s) :
    Inv (envSetWidths lw rw' s) := by
  refine ⟨?_, ?_, ?_⟩
  · intro hi
    obtain ⟨h1, h2, h3⟩ := h.req (by simpa [envSetWidths] using hi)
    simp [envSetWidths, Option.isSome_map', h1, h2, h3]
  · intro e he hd
    simp [envSetWidths] at he hd
    rcases hl : s.elements.leftEmpty with _ | el <;> simp [hl] at he
    subst he
    simpa using h.leftZero el hl hd
  · intro e he hd
    simp [envSetWidths] at he hd
    rcases hl : s.elements.rightEmpty with _ | el <;> simp [hl] at he
    subst he
    simpa using h.rightZero el hl hd

/-- Every reachable state satisfies the data invariant. -/
theorem reachable_inv {s : NavbarState} (h : Reachable s) : Inv s := by
  induction h with
  | construct options doc => exact inv_mkState options doc
  | scroll y hr heq ih => exact inv_handleScroll y ih heq
  | resize hr ih => exact inv_updateDimensions ih
  | load y hr ih => exact inv_handleLoad y ih
  | reconfig p hr ih => exact inv_updateConfig p ih
  | teardown hr ih => exact inv_destroy ih
  | render lw rw' hr ih => exact inv_envSetWidths lw rw' ih

/-! Class-list facts. -/

theorem mem_classListAdd_self (cls : String) (l : List String) : cls ∈ classListAdd cls l := by
  by_cases h : cls ∈ l <;> simp [classListAdd, h]

theorem not_mem_classListRemove (cls : String) (l : List String) :
    cls ∉ classListRemove cls l := by
  simp [classListRemove]

theorem mem_classListAdd_ne {a cls : String} (h : a ≠ cls) (l : List String) :
    a ∈ classListAdd cls l ↔ a ∈ l := by
  by_cases hm : cls ∈ l <;> simp [classListAdd, hm, h]

/-! Characterizations of a qualifying scroll step. -/

/-- A qualifying upward scroll step is `showNavbar` followed by recording the
new scroll offset. -/
theorem handleScroll_up_eq {s : NavbarState} {y : Int} {c : Elem}
    (hinit : s.scrollState.isInitialized = true)
    (hth : ¬ |y - s.scrollState.lastScrollY| < s.config.scrollThreshold)
    (hup : y < s.scrollState.lastScrollY)
    (hc : s.elements.container = some c) :
    handleScroll y s = some
      { s with
        elements := { s.elements with
          container := some { c with
            classes := classListAdd "scroll-up" (classListRemove "scroll-down" c.classes) }
          navbarItemsSection := s.elements.navbarItemsSection.map
            (fun e => { e with style := { e.style with opacity := some "1" } })
          leftEmpty := s.elements.leftEmpty.map (restoreWidth s.dimensions.leftEmptyWidth)
          rightEmpty := s.elements.rightEmpty.map (restoreWidth s.dimensions.rightEmptyWidth) }
        scrollState := { s.scrollState with lastScrollY := y } } := by
  simp [handleScroll, hinit, hth, hup, updateNavbarState, showNavbar, hc]

/-- A qualifying downward (or equal-offset) scroll step is `hideNavbar`
followed by recording the new scroll offset. -/
theorem handleScroll_down_eq {s : NavbarState} {y : Int} {c : Elem}
    (hinit : s.scrollState.isInitialized = true)
    (hth : ¬ |y - s.scrollState.lastScrollY| < s.config.scrollThreshold)
    (hdown : ¬ y < s.scrollState.lastScrollY)
    (hc : s.elements.container = some c) :
    handleScroll y s = some
      { s with
        elements := { s.elements with
          container := some { c with
            classes := classListAdd "scroll-down" (classListRemove "scroll-up" c.classes) }
          navbarItemsSection := s.elements.navbarItemsSection.map
            (fun e => { e with style := { e.style with opacity := some "0" } })
          leftEmpty := s.elements.leftEmpty.map
            (fun e => { e with style := { e.style with width := some "0px" } })
          rightEmpty := s.elements.rightEmpty.map
            (fun e => { e with style := { e.style with width := some "0px" } }) }
        scrollState := { s.scrollState with lastScrollY := y } } := by
  simp [handleScroll, hinit, hth, hdown, updateNavbarState, hideNavbar, hc]

/-- `hideNavbar` written out, given the cached container. -/
theorem hideNavbar_eq {s : NavbarState} {c : Elem} (hc : s.elements.container = some c) :
    hideNavbar s = some
      { s with elements := { s.elements with
          container := some { c with
            classes := classListAdd "scroll-down" (classListRemove "scroll-up" c.classes) }
          navbarItemsSection := s.elements.navbarItemsSection.map
            (fun e => { e with style := { e.style with opacity := some "0" } })
          leftEmpty := s.elements.leftEmpty.map
            (fun e => { e with style := { e.style with width := some "0px" } })
          rightEmpty := s.elements.rightEmpty.map
            (fun e => { e with style := { e.style with width := some "0px" } }) } } := by
  simp [hideNavbar, hc]

/-- `showNavbar` written out, given the cached container. -/
theorem showNavbar_eq {s : NavbarState} {c : Elem} (hc : s.elements.container = some c) :
    showNavbar s = some
      { s with elements := { s.elements with
          container := some { c with
            classes := classListAdd "scroll-up" (classListRemove "scroll-down" c.classes) }
          navbarItemsSection := s.elements.navbarItemsSection.map
            (fun e => { e with style := { e.style with opacity := some "1" } })
          leftEmpty := s.elements.leftEmpty.map (restoreWidth s.dimensions.leftEmptyWidth)
          rightEmpty := s.elements.rightEmpty.map (restoreWidth s.dimensions.rightEmptyWidth) } } := by
  simp [showNavbar, hc]

/-- If the three required lookups all succeeded, no role is missing. -/
theorem missing_nil_of_required (els : Elements)
    (hc : els.container.isSome = true) (hn : els.navbarMainSection.isSome = true)
    (hi : els.navbarItemsSection.isSome = true) : missingElements els = [] := by
  obtain ⟨c, hc⟩ := Option.isSome_iff_exists.mp hc
  obtain ⟨n, hn⟩ := Option.isSome_iff_exists.mp hn
  obtain ⟨i, hi⟩ := Option.isSome_iff_exists.mp hi
  simp [missingElements, requiredRoles, lookupRole, hc, hn, hi]

/-! Claim theorems. -/

/-- C1: after successful initialization, every scroll event whose absolute
delta from the last recorded offset reaches the threshold and which moves
toward the page top ends in the shown state: the hidden-marker class
`scroll-down` is removed and the shown-marker class `scroll-up` added on the
container, the items-section inline opacity is set to `"1"`, and each present
spacer's inline width is restored to its cached measured width (left untouched
when no cached measurement exists yet). -/
theorem scroll_up_shows_navbar (s : NavbarState) (y : Int)
    (hre : Reachable s)
    (hinit : s.scrollState.isInitialized = true)
    (hth : s.config.scrollThreshold ≤ |y - s.scrollState.lastScrollY|)
    (hup : y < s.scrollState.lastScrollY) :
    ∃ s', handleScroll y s = some s' ∧
      (∃ c, s'.elements.container = some c ∧
        "scroll-down" ∉ c.classes ∧ "scroll-up" ∈ c.classes) ∧
      (∃ e, s'.elements.navbarItemsSection = some e ∧ e.style.opacity = some "1") ∧
      (∀ e, s.elements.leftEmpty = some e → ∃ e', s'.elements.leftEmpty = some e' ∧
        e'.style.width = (match s.dimensions.leftEmptyWidth with
          | some w => some (pxString w)
          | none => e.style.width)) ∧
      (∀ e, s.elements.rightEmpty = some e → ∃ e', s'.elements.rightEmpty = some e' ∧
        e'.style.width = (match s.dimensions.rightEmptyWidth with
          | some w => some (pxString w)
          | none => e.style.width)) := by
  have hInv := reachable_inv hre
  obtain ⟨hc, -, hitems⟩ := hInv.req hinit
  obtain ⟨c0, hc0⟩ := Option.isSome_iff_exists.mp hc
  obtain ⟨i0, hi0⟩ := Option.isSome_iff_exists.mp hitems
  have hth' : ¬ |y - s.scrollState.lastScrollY| < s.config.scrollThreshold := not_lt.mpr hth
  refine ⟨_, handleScroll_up_eq hinit hth' hup hc0, ?_, ?_, ?_, ?_⟩
  · refine ⟨_, rfl, ?_, mem_classListAdd_self _ _⟩
    rw [mem_classListAdd_ne (by decide)]
    exact not_mem_classListRemove _ _
  · exact ⟨{ i0 with style := { i0.style with opacity := some "1" } }, by simp [hi0], rfl⟩
  · intro e he
    refine ⟨restoreWidth s.dimensions.leftEmptyWidth e, by simp [he], ?_⟩
    rcases hd : s.dimensions.leftEmptyWidth with _ | w
    · simp [restoreWidth]
    · by_cases hw : w = 0
      · subst hw
        have hz := hInv.leftZero e he hd
        simp [restoreWidth, hz]
        decide
      · simp [restoreWidth, hw]
  · intro e he
    refine ⟨restoreWidth s.dimensions.rightEmptyWidth e, by simp [he], ?_⟩
    rcases hd : s.dimensions.rightEmptyWidth with _ | w
    · simp [restoreWidth]
    · by_cases hw : w = 0
      · subst hw
        have hz := hInv.rightZero e he hd
        simp [restoreWidth, hz]
        decide
      · simp [restoreWidth, hw]

/-- Witness for C1: the demo controller (last offset 100) scrolled up to 50. -/
theorem scroll_up_shows_navbar_witness :
    ∃ s', handleScroll 50 demoState = some s' ∧
      (∃ c, s'.elements.container = some c ∧
        "scroll-down" ∉ c.classes ∧ "scroll-up" ∈ c.classes) ∧
      (∃ e, s'.elements.navbarItemsSection = some e ∧ e.style.opacity = some "1") ∧
      (∀ e, demoState.elements.leftEmpty = some e → ∃ e', s'.elements.leftEmpty = some e' ∧
        e'.style.width = (match demoState.dimensions.leftEmptyWidth with
          | some w => some (pxString w)
          | none => e.style.width)) ∧
      (∀ e, demoState.elements.rightEmpty = some e → ∃ e', s'.elements.rightEmpty = some e' ∧
        e'.style.width = (match demoState.dimensions.rightEmptyWidth with
          | some w => some (pxString w)
          | none => e.style.width)) :=
  scroll_up_shows_navbar demoState 50 (Reachable.construct {} fullDoc)
    (by decide) (by decide) (by decide)

/-- C2: after successful initialization, every scroll event whose absolute
delta from the last recorded offset reaches the threshold and which moves away
from the page top (current offset at or below the recorded one on screen,
`currentY ≥ lastY`) ends in the hidden state: the shown-marker class
`scroll-up` is removed and the hidden-marker class `scroll-down` added on the
container, the items-section inline opacity is set to `"0"`, and each present
spacer's inline width is set to `"0px"`. -/
theorem scroll_down_hides_navbar (s : NavbarState) (y : Int)
    (hre : Reachable s)
    (hinit : s.scrollState.isInitialized = true)
    (hth : s.config.scrollThreshold ≤ |y - s.scrollState.lastScrollY|)
    (hdown : s.scrollState.lastScrollY ≤ y) :
    ∃ s', handleScroll y s = some s' ∧
      (∃ c, s'.elements.container = some c ∧
        "scroll-up" ∉ c.classes ∧ "scroll-down" ∈ c.classes) ∧
      (∃ e, s'.elements.navbarItemsSection = some e ∧ e.style.opacity = some "0") ∧
      (∀ e, s.elements.leftEmpty = some e → ∃ e', s'.elements.leftEmpty = some e' ∧
        e'.style.width = some "0px") ∧
      (∀ e, s.elements.rightEmpty = some e → ∃ e', s'.elements.rightEmpty = some e' ∧
        e'.style.width = some "0px") := by
  have hInv := reachable_inv hre
  obtain ⟨hc, -, hitems⟩ := hInv.req hinit
  obtain ⟨c0, hc0⟩ := Option.isSome_iff_exists.mp hc
  obtain ⟨i0, hi0⟩ := Option.isSome_iff_exists.mp hitems
  have hth' : ¬ |y - s.scrollState.lastScrollY| < s.config.scrollThreshold := not_lt.mpr hth
  have hdown' : ¬ y < s.scrollState.lastScrollY := not_lt.mpr hdown
  refine ⟨_, handleScroll_down_eq hinit hth' hdown' hc0, ?_, ?_, ?_, ?_⟩
  · refine ⟨_, rfl, ?_, mem_classListAdd_self _ _⟩
    rw [mem_classListAdd_ne (by decide)]
    exact not_mem_classListRemove _ _
  · exact ⟨{ i0 with style := { i0.style with opacity := some "0" } }, by simp [hi0], rfl⟩
  · intro e he
    exact ⟨{ e with style := { e.style with width := some "0px" } }, by simp [he], rfl⟩
  · intro e he
    exact ⟨{ e with style := { e.style with width := some "0px" } }, by simp [he], rfl⟩

/-- Witness for C2: the demo controller (last offset 100) scrolled down to
250. -/
theorem scroll_down_hides_navbar_witness :
    ∃ s', handleScroll 250 demoState = some s' ∧
      (∃ c, s'.elements.container = some c ∧
        "scroll-up" ∉ c.classes ∧ "scroll-down" ∈ c.classes) ∧
      (∃ e, s'.elements.navbarItemsSection = some e ∧ e.style.opacity = some "0") ∧
      (∀ e, demoState.elements.leftEmpty = some e → ∃ e', s'.elements.leftEmpty = some e' ∧
        e'.style.width = some "0px") ∧
      (∀ e, demoState.elements.rightEmpty = some e → ∃ e', s'.elements.rightEmpty = some e' ∧
        e'.style.width = some "0px") :=
  scroll_down_hides_navbar demoState 250 (Reachable.construct {} fullDoc)
    (by decide) (by decide) (by decide)

/-- C3: a scroll event whose absolute delta from the last recorded offset is
strictly below the threshold changes nothing: the handler returns the state
exactly as it was (no class change, no style mutation, `lastScrollY`
untouched). -/
theorem subthreshold_scroll_noop (s : NavbarState) (y : Int)
    (h : |y - s.scrollState.lastScrollY| < s.config.scrollThreshold) :
    handleScroll y s = some s := by
  rw [handleScroll]
  rcases hi : s.scrollState.isInitialized with _ | _
  · simp [hi]
  · simp [hi, h]

/-- Witness for C3: the demo controller at offset 100 sees a scroll to 103
(delta 3, threshold 10). -/
theorem subthreshold_scroll_noop_witness :
    |(103 : Int) - demoState.scrollState.lastScrollY| < demoState.config.scrollThreshold ∧
      handleScroll 103 demoState = some demoState :=
  ⟨by decide, subthreshold_scroll_noop demoState 103 (by decide)⟩

/-- C4: when one or more required elements cannot be located, `cacheElements`
throws a single error listing exactly the missing required role names (all of
them), `init` catches it internally (construction returns the partially
assigned state rather than propagating), the controller stays un-initialized,
and any subsequent scroll event leaves the state unchanged. -/
theorem missing_required_elements (options : PartialConfig) (doc : Doc) (y : Int)
    (hmiss : missingElements (queryElements doc (mergeConfig defaultConfig options)) ≠ []) :
    (cacheElements doc { config := mergeConfig defaultConfig options }).2 =
      some (requiredErrorMsg
        (missingElements (queryElements doc (mergeConfig defaultConfig options)))) ∧
    (∀ role ∈ requiredRoles,
      (role ∈ missingElements (queryElements doc (mergeConfig defaultConfig options)) ↔
        lookupRole (queryElements doc (mergeConfig defaultConfig options)) role = none)) ∧
    mkState options doc = (cacheElements doc { config := mergeConfig defaultConfig options }).1 ∧
    (mkState options doc).scrollState.isInitialized = false ∧
    handleScroll y (mkState options doc) = some (mkState options doc) := by
  have hm : 0 < (missingElements (queryElements doc (mergeConfig defaultConfig options))).length :=
    List.length_pos.mpr hmiss
  refine ⟨?_, ?_, ?_, ?_, ?_⟩
  · simp [cacheElements, hm]
  · intro role hrole
    simp [missingElements, List.mem_filter, hrole, Option.isNone_iff_eq_none]
  · simp [mkState, init, cacheElements, hm]
  · simp [mkState, init, cacheElements, hm]
  · simp [handleScroll, mkState, init, cacheElements, hm]

/-- Witness for C4: a page where no selector resolves; all three required
roles are reported missing and a scroll to 42 has no effect. -/
theorem missing_required_elements_witness :
    missingElements (queryElements emptyDoc (mergeConfig defaultConfig {})) ≠ [] ∧
    ((cacheElements emptyDoc { config := mergeConfig defaultConfig {} }).2 =
      some (requiredErrorMsg
        (missingElements (queryElements emptyDoc (mergeConfig defaultConfig {})))) ∧
    (∀ role ∈ requiredRoles,
      (role ∈ missingElements (queryElements emptyDoc (mergeConfig defaultConfig {})) ↔
        lookupRole (queryElements emptyDoc (mergeConfig defaultConfig {})) role = none)) ∧
    mkState {} emptyDoc = (cacheElements emptyDoc { config := mergeConfig defaultConfig {} }).1 ∧
    (mkState {} emptyDoc).scrollState.isInitialized = false ∧
    handleScroll 42 (mkState {} emptyDoc) = some (mkState {} emptyDoc)) :=
  ⟨by decide, missing_required_elements {} emptyDoc 42 (by decide)⟩

/-- C5, evaluated on the code: starting from the freshly constructed demo
controller (last offset 100), a qualifying downward scroll to 250 and then a
qualifying upward scroll to 10 leave `getScrollState().isScrollingUp` at its
construction-time value `false`, although the last qualifying scroll moved
toward the page top — `handleScroll` computes the direction into a local
constant and never writes it into `scrollState`. -/
theorem direction_field_never_written :
    (handleScroll 250 demoState).map (fun s => s.scrollState.lastScrollY) = some 250 ∧
    (10 : Int) < 250 ∧
    (handleScroll 250 demoState >>= handleScroll 10).map getScrollState =
      some { lastScrollY := 10, isScrollingUp := false, isInitialized := true } :=
  ⟨by decide, by decide, by decide⟩

/-- C6: for each configuration field, updating that single field and reading
the configuration back yields that field set to the new value and every other
field holding exactly its previous value. -/
theorem updateConfig_getConfig_roundtrip (s : NavbarState) :
    (∀ v, getConfig (updateConfig { containerSelector := some v } s) =
      { getConfig s with containerSelector := v }) ∧
    (∀ v, getConfig (updateConfig { ctaBtnContainerSelector := some v } s) =
      { getConfig s with ctaBtnContainerSelector := v }) ∧
    (∀ v, getConfig (updateConfig { logoContainerSelector := some v } s) =
      { getConfig s with logoContainerSelector := v }) ∧
    (∀ v, getConfig (updateConfig { navbarMainSectionSelector := some v } s) =
      { getConfig s with navbarMainSectionSelector := v }) ∧
    (∀ v, getConfig (updateConfig { navbarItemsSectionSelector := some v } s) =
      { getConfig s with navbarItemsSectionSelector := v }) ∧
    (∀ v, getConfig (updateConfig { scrollThreshold := some v } s) =
      { getConfig s with scrollThreshold := v }) ∧
    (∀ v, getConfig (updateConfig { transitionDuration := some v } s) =
      { getConfig s with transitionDuration := v }) := by
  refine ⟨fun v => ?_, fun v => ?_, fun v => ?_, fun v => ?_, fun v => ?_, fun v => ?_,
    fun v => ?_⟩ <;>
  · simp only [updateConfig, getConfig]
    split <;> simp [mergeConfig]

/-- C7 as stated is false at duration `0`: the partial update carries the
`transitionDuration` field, yet transition setup is not re-run — the code
tests the value's truthiness, not the field's presence, and the elements keep
their 200ms transition strings (re-running setup would have written 0ms
strings). -/
theorem updateConfig_zero_duration_no_rerun :
    (({ transitionDuration := some 0 } : PartialConfig)).transitionDuration.isSome = true ∧
    (updateConfig { transitionDuration := some 0 } demoState).elements = demoState.elements ∧
    (setupTransitions { demoState with
        config := mergeConfig demoState.config { transitionDuration := some 0 } }).elements ≠
      demoState.elements :=
  ⟨by decide, by decide, by decide⟩

/-- C7 amended: `updateConfig` re-runs transition setup (with the merged,
new duration) exactly when the duration field is present with a truthy
(nonzero) value; otherwise — field absent, or present but zero — the cached
elements are left entirely untouched (in particular they are never
re-resolved). -/
theorem updateConfig_transition_rerun_iff (s : NavbarState) (p : PartialConfig) :
    (updateConfig p s).elements =
      (if truthyDuration p.transitionDuration = true
        then (setupTransitions { s with config := mergeConfig s.config p }).elements
        else s.elements) := by
  by_cases h : truthyDuration p.transitionDuration = true <;> simp [updateConfig, h]

/-- C8: after `destroy`, a scroll event leaves the state untouched (the
initialized flag is cleared so the late-firing handler is a no-op), while the
element cache, the dimension cache and the rest of the stored state are not
cleared and remain readable through the accessors. -/
theorem destroy_then_scroll_noop (s : NavbarState) (y : Int) :
    handleScroll y (destroy s) = some (destroy s) ∧
    (destroy s).elements = s.elements ∧
    (destroy s).dimensions = s.dimensions ∧
    getConfig (destroy s) = getConfig s ∧
    (getScrollState (destroy s)).lastScrollY = (getScrollState s).lastScrollY ∧
    (getScrollState (destroy s)).isScrollingUp = (getScrollState s).isScrollingUp ∧
    (getScrollState (destroy s)).isInitialized = false := by
  refine ⟨?_, rfl, rfl, rfl, rfl, rfl, rfl⟩
  rw [handleScroll]
  simp [destroy]

/-- C9: when the required lookups succeed, the spacers are taken positionally
from the children of the main-section's parent — zero-based indices 0 and 2,
never a selector lookup — and with fewer than three children the right spacer
is silently recorded as absent while no error is raised. -/
theorem spacers_positional (doc : Doc) (s : NavbarState)
    (hc : (queryElements doc s.config).container.isSome = true)
    (hn : (queryElements doc s.config).navbarMainSection.isSome = true)
    (hi : (queryElements doc s.config).navbarItemsSection.isSome = true) :
    (cacheElements doc s).2 = none ∧
    (cacheElements doc s).1.elements.leftEmpty = doc.mainParentChildren.get? 0 ∧
    (cacheElements doc s).1.elements.rightEmpty = doc.mainParentChildren.get? 2 ∧
    (doc.mainParentChildren.length < 3 →
      (cacheElements doc s).1.elements.rightEmpty = none) := by
  have hnil := missing_nil_of_required _ hc hn hi
  have hm : ¬ 0 < (missingElements (queryElements doc s.config)).length := by simp [hnil]
  refine ⟨by simp [cacheElements, hm], by simp [cacheElements, hm],
    by simp [cacheElements, hm], ?_⟩
  intro hlen
  simp only [cacheElements, hm]
  simp only [reduceIte, if_false]
  rw [List.get?_eq_none]
  omega

/-- Witness for C9: the demo page with only two children in the main
section's parent — the right spacer is silently absent, no error. -/
theorem spacers_positional_witness :
    ((queryElements shortDoc defaultConfig).container.isSome = true) ∧
    ((queryElements shortDoc defaultConfig).navbarMainSection.isSome = true) ∧
    ((queryElements shortDoc defaultConfig).navbarItemsSection.isSome = true) ∧
    ((cacheElements shortDoc { config := defaultConfig }).2 = none ∧
    (cacheElements shortDoc { config := defaultConfig }).1.elements.leftEmpty =
      shortDoc.mainParentChildren.get? 0 ∧
    (cacheElements shortDoc { config := defaultConfig }).1.elements.rightEmpty =
      shortDoc.mainParentChildren.get? 2 ∧
    (shortDoc.mainParentChildren.length < 3 →
      (cacheElements shortDoc { config := defaultConfig }).1.elements.rightEmpty = none)) :=
  ⟨by decide, by decide, by decide,
    spacers_positional shortDoc { config := defaultConfig } (by decide) (by decide) (by decide)⟩

/-- C10: `hideNavbar` sets every present spacer's inline width to `"0px"`
unconditionally, while `showNavbar` restores a width only when the cached
measurement is truthy (nonzero) — so a present spacer whose cached width is
zero, or was never measured, stays at `"0px"` even through a subsequent
shown-state update. -/
theorem hide_show_zero_width_asymmetry (s : NavbarState)
    (hc : s.elements.container.isSome = true) :
    ∃ s1, hideNavbar s = some s1 ∧
      (∀ e, s.elements.leftEmpty = some e → ∃ e1, s1.elements.leftEmpty = some e1 ∧
        e1.style.width = some "0px") ∧
      (∀ e, s.elements.rightEmpty = some e → ∃ e1, s1.elements.rightEmpty = some e1 ∧
        e1.style.width = some "0px") ∧
      ∃ s2, showNavbar s1 = some s2 ∧
        ((s.dimensions.leftEmptyWidth = some 0 ∨ s.dimensions.leftEmptyWidth = none) →
          ∀ e, s.elements.leftEmpty = some e → ∃ e2, s2.elements.leftEmpty = some e2 ∧
            e2.style.width = some "0px") ∧
        ((s.dimensions.rightEmptyWidth = some 0 ∨ s.dimensions.rightEmptyWidth = none) →
          ∀ e, s.elements.rightEmpty = some e → ∃ e2, s2.elements.rightEmpty = some e2 ∧
            e2.style.width = some "0px") := by
  obtain ⟨c0, hc0⟩ := Option.isSome_iff_exists.mp hc
  refine ⟨_, hideNavbar_eq hc0, ?_, ?_, ?_⟩
  · intro e he
    exact ⟨{ e with style := { e.style with width := some "0px" } }, by simp [he], rfl⟩
  · intro e he
    exact ⟨{ e with style := { e.style with width := some "0px" } }, by simp [he], rfl⟩
  · refine ⟨_, showNavbar_eq rfl, ?_, ?_⟩
    · intro hdim e he
      refine ⟨{ e with style := { e.style with width := some "0px" } }, ?_, rfl⟩
      rcases hdim with h | h <;> simp [he, h, restoreWidth]
    · intro hdim e he
      refine ⟨{ e with style := { e.style with width := some "0px" } }, ?_, rfl⟩
      rcases hdim with h | h <;> simp [he, h, restoreWidth]

/-- Witness for C10: the controller constructed on the page whose spacers
render at width 0 — after hide then show, both spacer widths are `"0px"`. -/
theorem hide_show_zero_width_asymmetry_witness :
    zeroState.elements.container.isSome = true ∧
    (∃ s1, hideNavbar zeroState = some s1 ∧
      (∀ e, zeroState.elements.leftEmpty = some e → ∃ e1, s1.elements.leftEmpty = some e1 ∧
        e1.style.width = some "0px") ∧
      (∀ e, zeroState.elements.rightEmpty = some e → ∃ e1, s1.elements.rightEmpty = some e1 ∧
        e1.style.width = some "0px") ∧
      ∃ s2, showNavbar s1 = some s2 ∧
        ((zeroState.dimensions.leftEmptyWidth = some 0 ∨
            zeroState.dimensions.leftEmptyWidth = none) →
          ∀ e, zeroState.elements.leftEmpty = some e → ∃ e2, s2.elements.leftEmpty = some e2 ∧
            e2.style.width = some "0px") ∧
        ((zeroState.dimensions.rightEmptyWidth = some 0 ∨
            zeroState.dimensions.rightEmptyWidth = none) →
          ∀ e, zeroState.elements.rightEmpty = some e → ∃ e2, s2.elements.rightEmpty = some e2 ∧
            e2.style.width = some "0px")) :=
  ⟨by decide, hide_show_zero_width_asymmetry zeroState (by decide)⟩

end Navbar
